import Mathlib

/-!
Shallow embedding of `src/pages/api/link-preview/[url].ts` (a Next.js API
route).  The route's own logic (validation ordering, the psl guard chain,
the two image-search branches, the splice-based merge, the scrape fallback
ladder and the response envelopes) is translated directly from the source.
External collaborators (axios, puppeteer, cheerio, psl, the Bing image
provider) are oracles carried in an `Env` record; repo helpers that are not
part of the route file (`src/utils`, `src/lib/api`) are modelled from the
spec and marked as such.
-/

namespace LinkPreview

/-- JavaScript truthiness of a `string | null | undefined` value:
`null`/`undefined` and the empty string are falsy. -/
def jsTruthyOpt : Option String → Bool
  | some s => s ≠ ""
  | none => false

/-- Embedding of the JS test `/\S/.test(s)`: true iff `s` has at least one
non-whitespace character (JS `\S` agrees with `Char.isWhitespace` on the
ASCII inputs considered here). -/
def hasNonWs (s : String) : Bool :=
  s.toList.any (fun c => !c.isWhitespace)

/-- One pattern character of the domain regex built by
`new RegExp(rootDomain, 'ig')`.  Registrable domains contain only letters,
digits, hyphens and dots, so the only regex metacharacter that can occur is
`.`, which matches any character; every other character matches itself
case-insensitively (the `i` flag). -/
def regexCharMatches (p c : Char) : Bool :=
  if p = '.' then true else p.toLower = c.toLower

/-- Does the pattern match a prefix of `s` (one pattern char per input
char, per `regexCharMatches`)? -/
def matchPrefix : List Char → List Char → Bool
  | [], _ => true
  | _ :: _, [] => false
  | p :: ps, c :: cs => regexCharMatches p c && matchPrefix ps cs

/-- Auxiliary for `stripMatches`: scan left to right; `skip > 0` means we
are still inside a removed match (JS `lastIndex` continues after the match
end, so removed regions are never rescanned). -/
def stripMatchesAux (pat : List Char) : Nat → List Char → List Char
  | _, [] => []
  | k + 1, _ :: cs => stripMatchesAux pat k cs
  | 0, c :: cs =>
    if matchPrefix pat (c :: cs) ∧ pat ≠ [] then
      stripMatchesAux pat (pat.length - 1) cs
    else
      c :: stripMatchesAux pat 0 cs

/-- Embedding of `title.replace(new RegExp(rootDomain, 'ig'), '')`: remove
every non-overlapping left-to-right match of the domain regex. -/
def stripMatches (pat s : List Char) : List Char :=
  stripMatchesAux pat 0 s

/-- The character class of the source's special-character regex
`[&\/\\#,+()$~%.'":*?<>{}|—]` (line 143). -/
def specialChars : List Char :=
  ['&', '/', '\\', '#', ',', '+', '(', ')', '$', '~', '%', '.',
   '\x27', '"', ':', '*', '?', '<', '>', '\x7b', '\x7d', '|', '—']

/-- Embedding of `.replace(/[&\/\\#,+()$~%.'":*?<>{}|—]/g, ' ')`: each
special character is replaced by a single space. -/
def replaceSpecials (s : List Char) : List Char :=
  s.map (fun c => if specialChars.contains c then ' ' else c)

/-- Embedding of JS `String.prototype.trim`: drop whitespace from both
ends (JS's whitespace set agrees with `Char.isWhitespace` on the inputs
considered here). -/
def trimChars (s : List Char) : List Char :=
  ((s.dropWhile Char.isWhitespace).reverse.dropWhile Char.isWhitespace).reverse

/-- One entry of the Bing response array `res.data.value`; the handler
only reads its `contentUrl`. -/
structure ImageResult where
  contentUrl : String
deriving DecidableEq

/-- The record built by `scrapeMetaTags` (source lines 228–239). -/
structure MetaTags where
  url : String
  title : String
  favicon : Option String
  description : Option String
  image : Option String
  author : Option String
  siteName : Option String
deriving DecidableEq

/-- Result of the external `psl.parse`: either `{error}` (payload kept as
its `JSON.stringify` rendering) or a parsed record whose `sld` may be
absent. -/
inductive PslParsed where
  | perror (e : String)
  | parsed (sld : Option String)
deriving DecidableEq

/-- Heterogeneous values pushed onto the handler's `errors` array:
the provider-call error (`imageSearch.error`), the literal
"No search string for image" error from `getBingImageSearch`, and the
whole `tags.errors` array pushed as one element (source line 102). -/
inductive ErrVal where
  | providerError (e : String)
  | noSearchString
  | scrapeErrors (es : List String)
deriving DecidableEq

/-- The `{results} | {error}` shape returned by `getBingImageSearch`. -/
inductive BingOut where
  | results (v : List ImageResult)
  | error (e : ErrVal)
deriving DecidableEq

/-- The `{data: MetaTags} | {errors}` shape returned by `scrapeMetaTags`;
scrape error payloads are kept opaque as strings. -/
inductive ScrapeOut where
  | data (d : MetaTags)
  | errors (es : List String)
deriving DecidableEq

/-- A loaded cheerio document, abstracted to the two query forms the
source uses: `$(sel).attr(name)` and `$('title').first().text()`. -/
structure CheerioDoc where
  titleText : String
  attr : String → String → Option String

/-- External collaborators and the repo helpers absent from `src/`,
supplied as oracles.

* `decode` — Modelled from the spec: the base64-then-percent decoding of
  the raw path parameter (`Buffer.from(url, 'base64')` +
  `decodeURIComponent`), treated as an opaque total decoding function.
* `isValidWebUrl` — Modelled from the spec: `isValidWebUrl` from
  `src/utils` (absent from `src/`), "a syntactically valid absolute
  http/https URL".
* `extractHostname` — Modelled from the spec: `extractHostname` from
  `src/utils` (absent from `src/`), the hostname of the target URL.
* `pslGet` — external `psl.get`: registrable domain or `null` (psl never
  returns an empty string, so truthiness of its result is `isSome`).
* `pslParse` — external `psl.parse`.
* `provider` — the external Bing image-search HTTP call made by
  `getBingImageSearch` when it has a non-empty query (an absent API key
  simply surfaces as a provider error).
* `fetch` — the external axios GET performed by `src/lib/api` (absent
  from `src/`): body on success, opaque error otherwise.
* `render` — the puppeteer fallback: rendered `outerHTML` (possibly
  `undefined`, hence `Option`) or a navigation/launch error.
* `normalizeUri` — the `encodeURI(decodeURI url)` re-encoding applied
  before the direct fetch.
* `cheerio` — external `cheerio.load`. -/
structure Env where
  decode : String → String
  isValidWebUrl : String → Bool
  extractHostname : String → String
  pslGet : String → Option String
  pslParse : String → PslParsed
  provider : String → Except String (List ImageResult)
  fetch : String → Except String String
  render : String → Except String (Option String)
  normalizeUri : String → String
  cheerio : String → CheerioDoc

/-- JS `a || b` on optional strings: `a` unless it is falsy. -/
def jsOr (a b : Option String) : Option String :=
  if jsTruthyOpt a then a else b

/-- Embedding of the `getMetatag` cascade (source lines 222–226): first
truthy of the four selector queries, else the last query's value. -/
def getMetatag (q : String → Option String) (name : String) : Option String :=
  jsOr (q ("meta[name=" ++ name ++ "]"))
    (jsOr (q ("meta[name=\"og:" ++ name ++ "\"]"))
      (jsOr (q ("meta[property=\"og:" ++ name ++ "\"]"))
        (q ("meta[name=\"twitter:" ++ name ++ "\"]"))))

/-- Embedding of `getImageSearchString` (source lines 124–148).  `siteName`
is accepted but unused, as in the source (its use is commented out). -/
def getImageSearchString (env : Env) (title url : String)
    (_siteName : Option String) : String :=
  let rootDomain := env.pslGet (env.extractHostname url)
  let searchString :=
    match rootDomain with
    | some rd =>
      let stripRootDomain := (stripMatches rd.toList title.toList).asString
      if hasNonWs stripRootDomain then stripRootDomain else title
    | none => title
  (trimChars (replaceSpecials searchString.toList)).asString

/-- Embedding of `getBingImageSearch` (source lines 150–176), also
returning the list of queries actually sent to the provider (empty when
the search string is falsy and the provider is never called). -/
def getBingImageSearch (provider : String → Except String (List ImageResult))
    (search : String) : BingOut × List String :=
  if search ≠ "" then
    match provider search with
    | .ok v => (.results v, [search])
    | .error e => (.error (.providerError e), [search])
  else
    (.error .noSearchString, [])

/-- Steps 1–3 of `scrapeMetaTags` (source lines 180–216): the direct
fetch, then — only if no truthy HTML was obtained — the puppeteer
fallback; returns the final `html` value and the accumulated errors. -/
def scrapeHtml (env : Env) (url : String) : Option String × List String :=
  let fetched : Option String × List String :=
    match env.fetch (env.normalizeUri url) with
    | .ok body => (some body, [])
    | .error e => (none, [e])
  if jsTruthyOpt fetched.1 then fetched
  else
    match env.render url with
    | .ok h => (h, fetched.2)
    | .error e => (fetched.1, fetched.2 ++ [e])

/-- Embedding of `scrapeMetaTags` (source lines 178–247). -/
def scrapeMetaTags (env : Env) (url : String) : ScrapeOut :=
  let (html, errors) := scrapeHtml env url
  match html with
  | some h =>
    if h ≠ "" then
      let doc := env.cheerio h
      let q := fun sel => doc.attr sel "content"
      .data
        { url := url
          title := doc.titleText
          favicon := doc.attr "link[rel=\"shortcut icon\"]" "href"
          description := getMetatag q "description"
          image := getMetatag q "image"
          author := getMetatag q "author"
          siteName := getMetatag q "site_name" }
    else .errors errors
  | none => .errors errors

/-- JS `Array.prototype.splice(i, 0, x)`: insert `x` at index `i`, the
index clamped to the current length; `x` is inserted even when it is
`undefined` (`none`). -/
def jsSpliceInsert (l : List (Option String)) (i : Nat) (x : Option String) :
    List (Option String) :=
  l.take (min i l.length) ++ x :: l.drop (min i l.length)

/-- The five splice insertions of source lines 62–66, applied to the
page-specific image URLs; `rootDomainImageUrls[i]` is `undefined` (`none`)
when the root-domain list is shorter than `i + 1`. -/
def mergeImages (rootDomainImageUrls pageImageUrls : List String) :
    List (Option String) :=
  let l0 := pageImageUrls.map some
  let l1 := jsSpliceInsert l0 2 rootDomainImageUrls[0]?
  let l2 := jsSpliceInsert l1 5 rootDomainImageUrls[1]?
  let l3 := jsSpliceInsert l2 10 rootDomainImageUrls[2]?
  let l4 := jsSpliceInsert l3 15 rootDomainImageUrls[3]?
  jsSpliceInsert l4 20 rootDomainImageUrls[4]?

/-- Modelled from the spec's merge-policy words: "insert
`rootDomainImages[k]` at index i ... indices are post-each-insertion
positions, i.e. sequential insert-at operations on the growing sequence",
with an index past the end clamped to the current length ("clamped as
above", spec section 8). -/
def specInsertAt (i : Nat) (x : String) (l : List String) : List String :=
  l.take (min i l.length) ++ x :: l.drop (min i l.length)

/-- The `result` object of the response envelope.  `imageResults` entries
are `Option String` because the splice-based merge can insert `undefined`
(`none`) entries; the fallback paths, which pass the all-string
`rootDomainImageUrls`, appear here through `List.map some`. -/
structure PreviewResult where
  metaTags : Option MetaTags
  imageSearch : String
  imageResults : List (Option String)
deriving DecidableEq

/-- The JSON envelope `{success, result?, error?, errors?}` together with
the HTTP status code it is sent with. -/
structure Response where
  status : Nat
  success : Bool
  result : Option PreviewResult := none
  error : Option String := none
  errors : Option (List ErrVal) := none
deriving DecidableEq

/-- Observable side effects of one handler run: the queries sent to the
image-search provider, in order, and whether `scrapeMetaTags` ran. -/
structure Trace where
  bingQueries : List String
  scraped : Bool
deriving DecidableEq

/-- A handler run either sends a response or throws an uncaught `Error`
(the three psl guard failures, source lines 43, 46, 49). -/
inductive HandlerResult where
  | ok (r : Response) (tr : Trace)
  | thrown (msg : String) (tr : Trace)
deriving DecidableEq

/-- The `req.query.url` value: a single string, an array of strings, or
absent. -/
inductive UrlQuery where
  | one (s : String)
  | many (ss : List String)
  | missing
deriving DecidableEq

/-- Modelled from the spec: `isString` from `src/utils` (absent from
`src/`), "fails ... if the raw value is absent, or is provided as multiple
values (only exactly one URL string is accepted)". -/
def UrlQuery.isString : UrlQuery → Bool
  | .one _ => true
  | _ => false

/-- Embedding of `handler` (source lines 19–122).  The thrown branches
reproduce the three `throw Error(...)` statements; note that the method
`switch` sits inside the URL-validity test, and that the full-success
response omits the `errors` key even when the root-domain search failed. -/
def handler (env : Env) (method : String) (urlq : UrlQuery) : HandlerResult :=
  match urlq with
  | .one url =>
    let targetUrl := env.decode url
    if env.isValidWebUrl targetUrl then
      if method = "GET" then
        match env.pslGet (env.extractHostname targetUrl) with
        | some rootDomain =>
          match env.pslParse rootDomain with
          | .parsed (some sld) =>
            if sld ≠ "" then
              match getBingImageSearch env.provider sld with
              | (rootSearch, rootCalls) =>
                let branch :=
                  match rootSearch with
                  | .results v => (v.map ImageResult.contentUrl, ([] : List ErrVal))
                  | .error e => ([], [e])
                let rootDomainImageUrls := branch.1
                let errors := branch.2
                match scrapeMetaTags env targetUrl with
                | .data d =>
                  if hasNonWs d.title then
                    let imageSearchString :=
                      getImageSearchString env d.title d.url d.siteName
                    match getBingImageSearch env.provider imageSearchString with
                    | (pageSearch, pageCalls) =>
                      match pageSearch with
                      | .results v =>
                        .ok
                          { status := 200, success := true
                            result := some
                              { metaTags := some d
                                imageSearch := imageSearchString
                                imageResults :=
                                  mergeImages rootDomainImageUrls
                                    (v.map ImageResult.contentUrl) } }
                          { bingQueries := rootCalls ++ pageCalls, scraped := true }
                      | .error e =>
                        .ok
                          { status := 200, success := true
                            result := some
                              { metaTags := some d
                                imageSearch := imageSearchString
                                imageResults := rootDomainImageUrls.map some }
                            errors := some (errors ++ [e]) }
                          { bingQueries := rootCalls ++ pageCalls, scraped := true }
                  else
                    .ok
                      { status := 200, success := true
                        result := some
                          { metaTags := some d
                            imageSearch := sld
                            imageResults := rootDomainImageUrls.map some }
                        errors := some errors }
                      { bingQueries := rootCalls, scraped := true }
                | .errors es =>
                  .ok
                    { status := 200, success := true
                      result := some
                        { metaTags := none
                          imageSearch := sld
                          imageResults := rootDomainImageUrls.map some }
                      errors := some (errors ++ [ErrVal.scrapeErrors es]) }
                    { bingQueries := rootCalls, scraped := true }
            else .thrown "sld not found" { bingQueries := [], scraped := false }
          | .parsed none =>
            .thrown "sld not found" { bingQueries := [], scraped := false }
          | .perror e => .thrown e { bingQueries := [], scraped := false }
        | none =>
          .thrown "Root domain not found" { bingQueries := [], scraped := false }
      else
        .ok
          { status := 404, success := false
            error := some ("Method " ++ method ++ " not allowed") }
          { bingQueries := [], scraped := false }
    else
      .ok { status := 400, success := false, error := some "Invalid web url" }
        { bingQueries := [], scraped := false }
  | _ =>
    .ok { status := 400, success := false, error := some "Only one url can be checked" }
      { bingQueries := [], scraped := false }

/-- Did the run send a 200 response whose envelope carries a `result`
object (hence an `imageResults` list, by the `PreviewResult` shape)? -/
def HandlerResult.ok200WithResult : HandlerResult → Bool
  | .ok r _ => r.status == 200 && r.success && r.result.isSome
  | .thrown _ _ => false

/-- Does the scrape outcome carry a `data` record? -/
def ScrapeOut.hasData : ScrapeOut → Bool
  | .data _ => true
  | .errors _ => false

/-- Did the direct fetch (step 1 of the scraper) yield truthy HTML? -/
def fetchGaveHtml (env : Env) (url : String) : Bool :=
  match env.fetch (env.normalizeUri url) with
  | .ok body => body ≠ ""
  | .error _ => false

/-- Did the headless-render fallback yield truthy HTML? -/
def renderGaveHtml (env : Env) (url : String) : Bool :=
  match env.render url with
  | .ok (some h) => h ≠ ""
  | _ => false

/-- Modelled from the spec: `isValidWebUrl` from `src/utils` (absent from
`src/`), "a syntactically valid absolute web URL (http/https)"; used only
to instantiate the `Env` oracle in concrete runs. -/
def isValidWebUrlModel (s : String) : Bool :=
  ("http://".toList).isPrefixOf s.toList || ("https://".toList).isPrefixOf s.toList

/-- Modelled from the spec: `extractHostname` from `src/utils` (absent
from `src/`), "TargetUrl's hostname": drop the scheme, keep up to the
first slash; used only to instantiate the `Env` oracle in concrete runs. -/
def extractHostnameModel (s : String) : String :=
  let cs := s.toList
  let rest :=
    if ("https://".toList).isPrefixOf cs then cs.drop 8
    else if ("http://".toList).isPrefixOf cs then cs.drop 7
    else cs
  (rest.takeWhile (fun c => c ≠ '/')).asString

/-- Does `needle` occur as a contiguous run inside `hay`? -/
def listHasSeq (needle : List Char) : List Char → Bool
  | [] => needle.isEmpty
  | c :: cs => needle.isPrefixOf (c :: cs) || listHasSeq needle cs

/-- Case-insensitive substring containment, used to state the claims
about the derived search string. -/
def isInfixOfCI (needle hay : String) : Bool :=
  listHasSeq (needle.toList.map Char.toLower) (hay.toList.map Char.toLower)

/-- A concrete oracle instance around `https://example.com`: psl resolves
`example.com` with second-level label `example`; the provider and the
scraper fail.  Used for the `getImageSearchString` counterexamples. -/
def envExample : Env where
  decode := fun _ => "https://example.com/page"
  isValidWebUrl := isValidWebUrlModel
  extractHostname := extractHostnameModel
  pslGet := fun h => if h = "example.com" then some "example.com" else none
  pslParse := fun d => if d = "example.com" then .parsed (some "example") else .perror "no sld"
  provider := fun _ => .error "provider unavailable"
  fetch := fun _ => .error "fetch failed"
  render := fun _ => .error "render failed"
  normalizeUri := fun s => s
  cheerio := fun _ => { titleText := "", attr := fun _ _ => none }

/-- A concrete oracle instance where everything succeeds: the direct
fetch yields HTML with title "Example Article", the provider answers the
root-domain query `example` with five URLs and every other query with
ten. -/
def envFull : Env where
  decode := fun _ => "https://example.com/article"
  isValidWebUrl := isValidWebUrlModel
  extractHostname := extractHostnameModel
  pslGet := fun h => if h = "example.com" then some "example.com" else none
  pslParse := fun d => if d = "example.com" then .parsed (some "example") else .perror "no sld"
  provider := fun s =>
    if s = "example" then .ok [⟨"r0"⟩, ⟨"r1"⟩, ⟨"r2"⟩, ⟨"r3"⟩, ⟨"r4"⟩]
    else .ok [⟨"p0"⟩, ⟨"p1"⟩, ⟨"p2"⟩, ⟨"p3"⟩, ⟨"p4"⟩, ⟨"p5"⟩, ⟨"p6"⟩, ⟨"p7"⟩, ⟨"p8"⟩, ⟨"p9"⟩]
  fetch := fun _ => .ok "<html><title>Example Article</title></html>"
  render := fun _ => .error "not reached"
  normalizeUri := fun s => s
  cheerio := fun _ => { titleText := "Example Article", attr := fun _ _ => none }

/-- Like `envFull`, but the provider fails on every query except the
root-domain one (which yields two URLs). -/
def envPageFail : Env where
  decode := fun _ => "https://example.com/article"
  isValidWebUrl := isValidWebUrlModel
  extractHostname := extractHostnameModel
  pslGet := fun h => if h = "example.com" then some "example.com" else none
  pslParse := fun d => if d = "example.com" then .parsed (some "example") else .perror "no sld"
  provider := fun s => if s = "example" then .ok [⟨"r0"⟩, ⟨"r1"⟩] else .error "bing 403"
  fetch := fun _ => .ok "<html><title>Example Article</title></html>"
  render := fun _ => .error "not reached"
  normalizeUri := fun s => s
  cheerio := fun _ => { titleText := "Example Article", attr := fun _ _ => none }

/-- Like `envPageFail`, but the scraped title is a single space
(whitespace-only). -/
def envBlankTitle : Env where
  decode := fun _ => "https://example.com/article"
  isValidWebUrl := isValidWebUrlModel
  extractHostname := extractHostnameModel
  pslGet := fun h => if h = "example.com" then some "example.com" else none
  pslParse := fun d => if d = "example.com" then .parsed (some "example") else .perror "no sld"
  provider := fun s => if s = "example" then .ok [⟨"r0"⟩, ⟨"r1"⟩] else .error "bing 403"
  fetch := fun _ => .ok "<html><title> </title></html>"
  render := fun _ => .error "not reached"
  normalizeUri := fun s => s
  cheerio := fun _ => { titleText := " ", attr := fun _ _ => none }

/-- Like `envBlankTitle`, but the provider fails on every query — also
the root-domain one. -/
def envBlankTitleRootFail : Env where
  decode := fun _ => "https://example.com/article"
  isValidWebUrl := isValidWebUrlModel
  extractHostname := extractHostnameModel
  pslGet := fun h => if h = "example.com" then some "example.com" else none
  pslParse := fun d => if d = "example.com" then .parsed (some "example") else .perror "no sld"
  provider := fun _ => .error "bing 500"
  fetch := fun _ => .ok "<html><title> </title></html>"
  render := fun _ => .error "not reached"
  normalizeUri := fun s => s
  cheerio := fun _ => { titleText := " ", attr := fun _ _ => none }

/-- A concrete oracle instance whose decoded target URL is not a valid
web URL. -/
def envInvalidUrl : Env where
  decode := fun _ => "notaurl"
  isValidWebUrl := isValidWebUrlModel
  extractHostname := extractHostnameModel
  pslGet := fun _ => none
  pslParse := fun _ => .perror "not reached"
  provider := fun _ => .error "not reached"
  fetch := fun _ => .error "not reached"
  render := fun _ => .error "not reached"
  normalizeUri := fun s => s
  cheerio := fun _ => { titleText := "", attr := fun _ _ => none }

/-- Whenever `scrapeMetaTags` returns a `data` record, its `url` field is
the input URL, unchanged (source line 230). -/
theorem scrapeMetaTags_data_url (env : Env) (u : String) (d : MetaTags)
    (h : scrapeMetaTags env u = .data d) : d.url = u := by
  unfold scrapeMetaTags at h
  rcases hs : scrapeHtml env u with ⟨html, errs⟩
  rw [hs] at h
  cases html with
  | none => simp at h
  | some s =>
    by_cases hne : s = ""
    · simp [hne] at h
    · simp [hne] at h
      subst h
      rfl

/-- C1: when both image-search branches succeed with five root-domain
URLs and ten page-specific URLs, the response's `imageResults` is the
page-specific list after the sequential insert-at operations at indices
2, 5, 10, 15 and 20 of the progressively-growing sequence (the last two
indices clamped to the current length, as JS `splice` does and the spec's
"clamped as above" states: the fourth and fifth URLs land at positions 13
and 14 of the 15-element result). -/
theorem handler_inserts_five_roots_into_ten_pages (env : Env) (url rd sld q : String)
    (r0 r1 r2 r3 r4 p0 p1 p2 p3 p4 p5 p6 p7 p8 p9 : String) (d : MetaTags)
    (hv : env.isValidWebUrl (env.decode url) = true)
    (hroot : env.pslGet (env.extractHostname (env.decode url)) = some rd)
    (hparse : env.pslParse rd = .parsed (some sld))
    (hsld : sld ≠ "")
    (hprovRoot : env.provider sld = .ok [⟨r0⟩, ⟨r1⟩, ⟨r2⟩, ⟨r3⟩, ⟨r4⟩])
    (hscrape : scrapeMetaTags env (env.decode url) = .data d)
    (htitle : hasNonWs d.title = true)
    (hq : getImageSearchString env d.title d.url d.siteName = q)
    (hqne : q ≠ "")
    (hprovPage : env.provider q =
      .ok [⟨p0⟩, ⟨p1⟩, ⟨p2⟩, ⟨p3⟩, ⟨p4⟩, ⟨p5⟩, ⟨p6⟩, ⟨p7⟩, ⟨p8⟩, ⟨p9⟩]) :
    handler env "GET" (.one url) =
      .ok { status := 200, success := true
            result := some { metaTags := some d, imageSearch := q
                             imageResults :=
                               (specInsertAt 20 r4 (specInsertAt 15 r3 (specInsertAt 10 r2
                                 (specInsertAt 5 r1 (specInsertAt 2 r0
                                   [p0, p1, p2, p3, p4, p5, p6, p7, p8, p9]))))).map some } }
        { bingQueries := [sld, q], scraped := true } := by
  simp [handler, getBingImageSearch, hv, hroot, hparse, hsld, hprovRoot, hscrape, htitle,
        hq, hqne, hprovPage, mergeImages, jsSpliceInsert, specInsertAt]

/-- C1 witness: a full concrete run of the handler producing the merged
fifteen-element list. -/
theorem handler_inserts_five_roots_into_ten_pages_witness :
    handler envFull "GET" (.one "aHR0cA==") =
      .ok { status := 200, success := true
            result := some { metaTags := some ⟨"https://example.com/article", "Example Article",
                               none, none, none, none, none⟩
                             imageSearch := "Example Article"
                             imageResults :=
                               (specInsertAt 20 "r4" (specInsertAt 15 "r3" (specInsertAt 10 "r2"
                                 (specInsertAt 5 "r1" (specInsertAt 2 "r0"
                                   ["p0", "p1", "p2", "p3", "p4", "p5", "p6", "p7", "p8", "p9"]))))).map some } }
        { bingQueries := ["example", "Example Article"], scraped := true } :=
  handler_inserts_five_roots_into_ten_pages envFull "aHR0cA==" "example.com" "example"
    "Example Article" "r0" "r1" "r2" "r3" "r4" "p0" "p1" "p2" "p3" "p4" "p5" "p6" "p7" "p8" "p9"
    ⟨"https://example.com/article", "Example Article", none, none, none, none, none⟩
    (by decide) (by decide) (by decide) (by decide) (by rfl) (by decide) (by decide)
    (by decide) (by decide) (by rfl)

/-- C2: the code does NOT skip insertions when `rootDomainImageUrls` has
fewer than five elements.  With one root-domain URL and ten page-specific
URLs, JS `splice` inserts the `undefined` values `rootDomainImageUrls[1..4]`
at the (clamped) indices 5, 10, 13 and 14: the result has length 15 — not
10 + 1 = 11 — and contains four `undefined` placeholder entries. -/
theorem mergeImages_short_root_list_inserts_undefined :
    mergeImages ["a"] ["p0", "p1", "p2", "p3", "p4", "p5", "p6", "p7", "p8", "p9"] =
      [some "p0", some "p1", some "a", some "p2", some "p3", none, some "p4", some "p5",
       some "p6", some "p7", none, some "p8", some "p9", none, none] ∧
    (mergeImages ["a"] ["p0", "p1", "p2", "p3", "p4", "p5", "p6", "p7", "p8", "p9"]).length = 15 ∧
    none ∈ mergeImages ["a"] ["p0", "p1", "p2", "p3", "p4", "p5", "p6", "p7", "p8", "p9"] :=
  ⟨by decide, by decide, by decide⟩

/-- C3 counterexample: the spec's own example refutes the claim.  The
title "Example Site — Example" contains the domain label "example"
(case-insensitively), yet the derived search string still contains it,
because the code removes regex matches of the full root domain
`example.com` (with `.` a wildcard), not of the label. -/
theorem getImageSearchString_keeps_domain_label :
    isInfixOfCI "example" "Example Site — Example" = true ∧
    getImageSearchString envExample "Example Site — Example" "https://example.com/page" none =
      "Example Site   Example" ∧
    isInfixOfCI "example"
      (getImageSearchString envExample "Example Site — Example" "https://example.com/page" none) =
      true :=
  ⟨by decide, by decide, by decide⟩

/-- C3 amended: the derivation removes all case-insensitive regex matches
of the FULL root domain (`example.com`, `.` matching any character), not
of its second-level label.  A title containing only the label keeps it
(first three conjuncts, non-empty result), while a title containing the
full domain has that occurrence removed (last two conjuncts). -/
theorem getImageSearchString_strips_full_domain_not_label :
    getImageSearchString envExample "Example Site — Example" "https://example.com/page" none =
      "Example Site   Example" ∧
    getImageSearchString envExample "Example Site — Example" "https://example.com/page" none ≠ "" ∧
    isInfixOfCI "example"
      (getImageSearchString envExample "Example Site — Example" "https://example.com/page" none) =
      true ∧
    getImageSearchString envExample "News — example.com" "https://example.com/page" none = "News" ∧
    isInfixOfCI "example"
      (getImageSearchString envExample "News — example.com" "https://example.com/page" none) =
      false :=
  ⟨by decide, by decide, by decide, by decide, by decide⟩

/-- C4 counterexample: for the title "example.com" (under domain
`example.com`), stripping the domain leaves the empty string, so the code
falls back to the original title — but then still replaces special
characters and trims, returning "example com", which is not the original
title "exactly as scraped, unstripped". -/
theorem getImageSearchString_fallback_not_verbatim :
    hasNonWs (stripMatches ("example.com").toList ("example.com").toList).asString = false ∧
    getImageSearchString envExample "example.com" "https://example.com/x" none = "example com" ∧
    ("example com" : String) ≠ "example.com" :=
  ⟨by decide, by decide, by decide⟩

/-- C4 amended: when removing the root domain from the title leaves a
whitespace-only string, the search string is the ORIGINAL title with the
fixed special characters replaced by spaces and trimmed (the domain
stripping is skipped, but the special-character stripping still runs). -/
theorem getImageSearchString_fallback_strips_specials (env : Env) (title url rd : String)
    (sn : Option String)
    (hroot : env.pslGet (env.extractHostname url) = some rd)
    (hstrip : hasNonWs (stripMatches rd.toList title.toList).asString = false) :
    getImageSearchString env title url sn =
      (trimChars (replaceSpecials title.toList)).asString := by
  simp only [getImageSearchString, hroot]
  rw [if_neg]
  exact fun hc => absurd (hstrip.symm.trans hc) (by simp)

/-- C4 amended witness: the fallback evaluated at the concrete title
"example.com". -/
theorem getImageSearchString_fallback_strips_specials_witness :
    getImageSearchString envExample "example.com" "https://example.com/x" none =
      (trimChars (replaceSpecials ("example.com" : String).toList)).asString :=
  getImageSearchString_fallback_strips_specials envExample "example.com"
    "https://example.com/x" "example.com" none (by decide) (by decide)

/-- C5: when the root-domain search succeeded but the page-specific
provider call fails, the handler still sends a 200 success envelope whose
`imageResults` is exactly the root-domain list, whose `metaTags` is the
scraped record, and whose `errors` list is the non-empty singleton holding
the provider error. -/
theorem handler_page_search_failure_returns_root_images (env : Env)
    (url rd sld q e : String) (roots : List ImageResult) (d : MetaTags)
    (hv : env.isValidWebUrl (env.decode url) = true)
    (hroot : env.pslGet (env.extractHostname (env.decode url)) = some rd)
    (hparse : env.pslParse rd = .parsed (some sld))
    (hsld : sld ≠ "")
    (hprovRoot : env.provider sld = .ok roots)
    (hscrape : scrapeMetaTags env (env.decode url) = .data d)
    (htitle : hasNonWs d.title = true)
    (hq : getImageSearchString env d.title d.url d.siteName = q)
    (hqne : q ≠ "")
    (hprovPage : env.provider q = .error e) :
    handler env "GET" (.one url) =
      .ok { status := 200, success := true
            result := some { metaTags := some d, imageSearch := q
                             imageResults := (roots.map ImageResult.contentUrl).map some }
            errors := some [ErrVal.providerError e] }
        { bingQueries := [sld, q], scraped := true } := by
  simp [handler, getBingImageSearch, hv, hroot, hparse, hsld, hprovRoot, hscrape, htitle,
        hq, hqne, hprovPage]

/-- C5 witness: a concrete run in which the page-specific Bing call
fails with "bing 403" and the two root-domain URLs are returned. -/
theorem handler_page_search_failure_returns_root_images_witness :
    handler envPageFail "GET" (.one "aHR0cA==") =
      .ok { status := 200, success := true
            result := some { metaTags := some ⟨"https://example.com/article", "Example Article",
                               none, none, none, none, none⟩
                             imageSearch := "Example Article"
                             imageResults := [some "r0", some "r1"] }
            errors := some [ErrVal.providerError "bing 403"] }
        { bingQueries := ["example", "Example Article"], scraped := true } :=
  handler_page_search_failure_returns_root_images envPageFail "aHR0cA==" "example.com"
    "example" "Example Article" "bing 403" [⟨"r0"⟩, ⟨"r1"⟩]
    ⟨"https://example.com/article", "Example Article", none, none, none, none, none⟩
    (by decide) (by decide) (by decide) (by decide) (by rfl) (by decide) (by decide)
    (by decide) (by decide) (by rfl)

/-- C6: when the scrape succeeds but the title is empty or
whitespace-only, the page-specific search is never invoked — the provider
trace holds exactly the one root-domain query — and `imageResults` is the
root-domain list, whatever the root-domain search did: the provider's
`roots` when it succeeded (empty `errors`), the empty list when the
provider call failed (that error in `errors`). -/
theorem handler_blank_title_skips_page_search (env : Env)
    (url rd sld : String) (d : MetaTags)
    (hv : env.isValidWebUrl (env.decode url) = true)
    (hroot : env.pslGet (env.extractHostname (env.decode url)) = some rd)
    (hparse : env.pslParse rd = .parsed (some sld))
    (hsld : sld ≠ "")
    (hscrape : scrapeMetaTags env (env.decode url) = .data d)
    (htitle : hasNonWs d.title = false) :
    (∀ roots, env.provider sld = .ok roots →
      handler env "GET" (.one url) =
        .ok { status := 200, success := true
              result := some { metaTags := some d, imageSearch := sld
                               imageResults := (roots.map ImageResult.contentUrl).map some }
              errors := some [] }
          { bingQueries := [sld], scraped := true }) ∧
    (∀ e, env.provider sld = .error e →
      handler env "GET" (.one url) =
        .ok { status := 200, success := true
              result := some { metaTags := some d, imageSearch := sld
                               imageResults := [] }
              errors := some [ErrVal.providerError e] }
          { bingQueries := [sld], scraped := true }) :=
  ⟨fun roots hprov => by
    simp [handler, getBingImageSearch, hv, hroot, hparse, hsld, hprov, hscrape, htitle],
   fun e hprov => by
    simp [handler, getBingImageSearch, hv, hroot, hparse, hsld, hprov, hscrape, htitle]⟩

/-- C6 witness: two concrete runs with scraped title " ", one with a
successful root-domain search and one whose root-domain provider call
fails; in both the provider is queried exactly once, with the root-domain
label only. -/
theorem handler_blank_title_skips_page_search_witness :
    (handler envBlankTitle "GET" (.one "aHR0cA==") =
      .ok { status := 200, success := true
            result := some { metaTags := some ⟨"https://example.com/article", " ",
                               none, none, none, none, none⟩
                             imageSearch := "example"
                             imageResults := [some "r0", some "r1"] }
            errors := some [] }
        { bingQueries := ["example"], scraped := true }) ∧
    (handler envBlankTitleRootFail "GET" (.one "aHR0cA==") =
      .ok { status := 200, success := true
            result := some { metaTags := some ⟨"https://example.com/article", " ",
                               none, none, none, none, none⟩
                             imageSearch := "example"
                             imageResults := [] }
            errors := some [ErrVal.providerError "bing 500"] }
        { bingQueries := ["example"], scraped := true }) :=
  ⟨(handler_blank_title_skips_page_search envBlankTitle "aHR0cA==" "example.com" "example"
      ⟨"https://example.com/article", " ", none, none, none, none, none⟩
      (by decide) (by decide) (by decide) (by decide) (by decide) (by decide)).1
    [⟨"r0"⟩, ⟨"r1"⟩] (by rfl),
   (handler_blank_title_skips_page_search envBlankTitleRootFail "aHR0cA==" "example.com"
      "example" ⟨"https://example.com/article", " ", none, none, none, none, none⟩
      (by decide) (by decide) (by decide) (by decide) (by decide) (by decide)).2
    "bing 500" (by rfl)⟩

/-- C7: for a validated GET request, each of the three root-domain
resolution failures (no registrable domain, parser error, missing or
empty second-level label) makes the handler throw — aborting the request
before any scrape and before any provider call, with no 200 envelope —
while successful resolution always yields a 200 response carrying a
`result` object (hence an `imageResults` list), whatever the provider and
scraper do. -/
theorem handler_root_resolution_hard_stop_or_200 (env : Env) (url : String)
    (hv : env.isValidWebUrl (env.decode url) = true) :
    (env.pslGet (env.extractHostname (env.decode url)) = none →
      handler env "GET" (.one url) =
        .thrown "Root domain not found" { bingQueries := [], scraped := false }) ∧
    (∀ rd e, env.pslGet (env.extractHostname (env.decode url)) = some rd →
      env.pslParse rd = .perror e →
      handler env "GET" (.one url) = .thrown e { bingQueries := [], scraped := false }) ∧
    (∀ rd, env.pslGet (env.extractHostname (env.decode url)) = some rd →
      env.pslParse rd = .parsed none →
      handler env "GET" (.one url) =
        .thrown "sld not found" { bingQueries := [], scraped := false }) ∧
    (∀ rd, env.pslGet (env.extractHostname (env.decode url)) = some rd →
      env.pslParse rd = .parsed (some "") →
      handler env "GET" (.one url) =
        .thrown "sld not found" { bingQueries := [], scraped := false }) ∧
    (∀ rd sld, env.pslGet (env.extractHostname (env.decode url)) = some rd →
      env.pslParse rd = .parsed (some sld) → sld ≠ "" →
      (handler env "GET" (.one url)).ok200WithResult = true) := by
  refine ⟨fun h => by simp [handler, hv, h],
          fun rd e h1 h2 => by simp [handler, hv, h1, h2],
          fun rd h1 h2 => by simp [handler, hv, h1, h2],
          fun rd h1 h2 => by simp [handler, hv, h1, h2],
          fun rd sld h1 h2 h3 => ?_⟩
  simp only [handler, hv, h1, h2, h3, getBingImageSearch]
  repeat' split
  all_goals simp_all [HandlerResult.ok200WithResult]

/-- C7 witness: a concrete run with successful root-domain resolution,
yielding a 200 response with a `result` object. -/
theorem handler_root_resolution_hard_stop_or_200_witness :
    (handler envFull "GET" (.one "d2l0bmVzcw==")).ok200WithResult = true :=
  (handler_root_resolution_hard_stop_or_200 envFull "d2l0bmVzcw==" (by decide)).2.2.2.2
    "example.com" "example" (by decide) (by decide) (by decide)

/-- C8: `scrapeMetaTags` is a total function — every fetch or render
failure is caught, never propagated — and it returns a `data` record
exactly when truthy HTML was obtained from the direct fetch or from the
headless-render fallback; in every other case it returns an `errors`
record. -/
theorem scrapeMetaTags_data_iff_html_obtained (env : Env) (url : String) :
    (scrapeMetaTags env url).hasData = (fetchGaveHtml env url || renderGaveHtml env url) := by
  unfold scrapeMetaTags scrapeHtml fetchGaveHtml renderGaveHtml
  cases hf : env.fetch (env.normalizeUri url) with
  | ok body =>
    by_cases hb : body = ""
    · cases hr : env.render url with
      | ok h =>
        cases h with
        | some s => by_cases hs : s = "" <;> simp [jsTruthyOpt, hb, hs, ScrapeOut.hasData]
        | none => simp [jsTruthyOpt, hb, ScrapeOut.hasData]
      | error e => simp [jsTruthyOpt, hb, ScrapeOut.hasData]
    · simp [jsTruthyOpt, hb, ScrapeOut.hasData]
  | error e =>
    cases hr : env.render url with
    | ok h =>
      cases h with
      | some s => by_cases hs : s = "" <;> simp [jsTruthyOpt, hs, ScrapeOut.hasData]
      | none => simp [jsTruthyOpt, ScrapeOut.hasData]
    | error e2 => simp [jsTruthyOpt, ScrapeOut.hasData]

/-- C9 counterexample: URL validation runs BEFORE the method check, so a
POST request whose decoded URL is invalid gets the 400 "Invalid web url"
response, not the method-not-allowed one the claim requires for all
non-GET requests. -/
theorem handler_non_get_invalid_url_not_method_error :
    handler envInvalidUrl "POST" (.one "bm90YXVybA==") =
      .ok { status := 400, success := false, error := some "Invalid web url" }
        { bingQueries := [], scraped := false } ∧
    handler envInvalidUrl "POST" (.one "bm90YXVybA==") ≠
      .ok { status := 404, success := false
            error := some ("Method " ++ "POST" ++ " not allowed") }
        { bingQueries := [], scraped := false } :=
  ⟨by decide, by decide⟩

/-- C9 amended: for non-GET requests whose query is a single string AND
whose decoded URL passes validation, the handler returns the 404
method-not-allowed error without any provider call or scrape; when the
decoded URL is invalid, the invalid-URL error is returned instead (the
validation precedes the method check). -/
theorem handler_non_get_valid_url_method_not_allowed (env : Env) (method url : String)
    (hm : method ≠ "GET")
    (hv : env.isValidWebUrl (env.decode url) = true) :
    handler env method (.one url) =
      .ok { status := 404, success := false
            error := some ("Method " ++ method ++ " not allowed") }
        { bingQueries := [], scraped := false } := by
  simp [handler, hv, hm]

/-- C9 amended witness: a concrete valid-URL POST request. -/
theorem handler_non_get_valid_url_method_not_allowed_witness :
    handler envFull "POST" (.one "aHR0cA==") =
      .ok { status := 404, success := false
            error := some ("Method " ++ "POST" ++ " not allowed") }
        { bingQueries := [], scraped := false } :=
  handler_non_get_valid_url_method_not_allowed envFull "POST" "aHR0cA==" (by decide) (by decide)

/-- C10: whenever `scrapeMetaTags` returns a `data` record its `url` field
is the input URL unchanged; consequently every handler response whose
`result` carries a `metaTags` record has `metaTags.url` equal to the
decoded target URL. -/
theorem metaTags_url_equals_target_url (env : Env) (method url : String) :
    (∀ u d, scrapeMetaTags env u = .data d → d.url = u) ∧
    (∀ r tr pr m, handler env method (.one url) = .ok r tr → r.result = some pr →
      pr.metaTags = some m → m.url = env.decode url) := by
  refine ⟨fun u d h => scrapeMetaTags_data_url env u d h, ?_⟩
  intro r tr pr m hh hr hm
  simp only [handler] at hh
  repeat' split at hh
  all_goals
    first
    | exact absurd hh (fun hc => HandlerResult.noConfusion hc)
    | (injection hh with h1 h2
       subst h1
       simp at hr
       subst hr
       simp at hm
       subst hm
       exact scrapeMetaTags_data_url env _ _ (by assumption))
    | (injection hh with h1 h2
       subst h1
       simp at hr
       subst hr
       simp at hm)
    | (injection hh with h1 h2
       subst h1
       simp at hr)

/-- C10 witness: the concrete full-success run; the `metaTags.url` of the
response equals the decoded target URL. -/
theorem metaTags_url_equals_target_url_witness :
    MetaTags.url ⟨"https://example.com/article", "Example Article",
        none, none, none, none, none⟩ =
      envFull.decode "aHR0cA==" :=
  (metaTags_url_equals_target_url envFull "GET" "aHR0cA==").2
    { status := 200, success := true
      result := some { metaTags := some ⟨"https://example.com/article", "Example Article",
                         none, none, none, none, none⟩
                       imageSearch := "Example Article"
                       imageResults := [some "p0", some "p1", some "r0", some "p2", some "p3",
                         some "r1", some "p4", some "p5", some "p6", some "p7", some "r2",
                         some "p8", some "p9", some "r3", some "r4"] } }
    { bingQueries := ["example", "Example Article"], scraped := true }
    { metaTags := some ⟨"https://example.com/article", "Example Article",
        none, none, none, none, none⟩
      imageSearch := "Example Article"
      imageResults := [some "p0", some "p1", some "r0", some "p2", some "p3",
        some "r1", some "p4", some "p5", some "p6", some "p7", some "r2",
        some "p8", some "p9", some "r3", some "r4"] }
    ⟨"https://example.com/article", "Example Article", none, none, none, none, none⟩
    (by decide) (by decide) (by decide)

end LinkPreview
